/-
Verification of the load-test threshold evaluator
(tests/load/check_thresholds.py).

The script loads k6 result documents (JSON), extracts a fixed set of
metrics, compares them against a constant threshold table and folds the
pass/fail outcomes of all files into a process exit code.

Embedding notes:
* JSON values relevant to the script are numbers and string-keyed objects;
  a document is modelled by `Json` (exact rational numbers stand in for
  Python floats; the script's arithmetic is sums, differences and a
  multiplication by 100, on which float and rational semantics agree for
  the documents considered here).
* Python dictionaries appear as insertion-ordered association lists.
* Exceptions (`KeyError`, `TypeError`, `AttributeError`) are modelled with
  `Except PyErr`.  `dict.get(k, 0)` on a present key whose value is not a
  number is modelled as a `typeError` at extraction time; in the script
  such a value is stored and then crashes the same call to
  `analyze_results` at the summary `format` step, so the observable
  outcome of `analyze_results` (uncaught error) is the same.
* Console output (colors, summary lines) is presentation only and is not
  modelled; `sys.exit(n)` becomes returning the exit code `n`.
* Reading a file either fails (read/parse error, caught by
  `load_results`, which returns the empty dict) or yields a parsed JSON
  document; `LoadOutcome` records which, so `analyze_results` and `main`
  are functions of the contents behind the supplied paths.
-/
import Mathlib

/-- Python exceptions that the script can raise. -/
inductive PyErr where
  | keyError (k : String)
  | typeError
  | attributeError
deriving DecidableEq, Repr

/-- The fragment of JSON the script reads: numbers and objects. -/
inductive Json where
  | num (q : ℚ)
  | obj (fields : List (String × Json))

/-- Python truthiness of a loaded document: `not data`. -/
def pyFalsy : Json → Bool
  | .num q => q == 0
  | .obj fs => fs.isEmpty

/-- Python `k in data` for the values a document can hold:
membership test on a dict, `TypeError` on a number. -/
def pyContains (v : Json) (k : String) : Except PyErr Bool :=
  match v with
  | .obj fs => .ok (fs.lookup k).isSome
  | .num _ => .error .typeError

/-- Python `v[k]`: lookup on a dict (`KeyError` when absent),
`TypeError` on a number. -/
def pyIndex (v : Json) (k : String) : Except PyErr Json :=
  match v with
  | .obj fs =>
    match fs.lookup k with
    | some w => .ok w
    | none => .error (.keyError k)
  | .num _ => .error .typeError

/-- Python `v.get(k, 0)` read as a number: `AttributeError` when `v` is
not a dict; default `0` when the key is absent; a present non-numeric
value errors (see the embedding notes at the top of the file). -/
def pyGetNum (v : Json) (k : String) : Except PyErr ℚ :=
  match v with
  | .obj fs =>
    match fs.lookup k with
    | some (.num q) => .ok q
    | some (.obj _) => .error .typeError
    | none => .ok 0
  | .num _ => .error .attributeError

/-- The flat extracted-metrics dictionary: metric name to number. -/
abbrev Metrics := List (String × ℚ)

/-- The `http_req_duration` block of `extract_metrics`. -/
def duration_part (m : Json) : Except PyErr Metrics := do
  if (← pyContains m "http_req_duration") then
    let duration ← pyIndex (← pyIndex m "http_req_duration") "values"
    let avg ← pyGetNum duration "avg"
    let p95 ← pyGetNum duration "p(95)"
    let p99 ← pyGetNum duration "p(99)"
    let mx ← pyGetNum duration "max"
    pure [("avg_latency", avg), ("p95_latency", p95),
          ("p99_latency", p99), ("max_latency", mx)]
  else
    pure []

/-- The `http_req_failed` block of `extract_metrics`: the 0-1 `rate`
is converted to a percentage. -/
def failed_part (m : Json) : Except PyErr Metrics := do
  if (← pyContains m "http_req_failed") then
    let failed ← pyIndex (← pyIndex m "http_req_failed") "values"
    let rate ← pyGetNum failed "rate"
    pure [("error_rate", rate * 100)]
  else
    pure []

/-- The `http_reqs` block of `extract_metrics`. -/
def reqs_part (m : Json) : Except PyErr Metrics := do
  if (← pyContains m "http_reqs") then
    let reqs ← pyIndex (← pyIndex m "http_reqs") "values"
    let count ← pyGetNum reqs "count"
    let rate ← pyGetNum reqs "rate"
    pure [("total_requests", count), ("requests_per_second", rate)]
  else
    pure []

/-- The `iterations` block of `extract_metrics`. -/
def iterations_part (m : Json) : Except PyErr Metrics := do
  if (← pyContains m "iterations") then
    let iterations ← pyIndex (← pyIndex m "iterations") "values"
    let count ← pyGetNum iterations "count"
    pure [("total_iterations", count)]
  else
    pure []

/-- The `vus` block of `extract_metrics`. -/
def vus_part (m : Json) : Except PyErr Metrics := do
  if (← pyContains m "vus") then
    let vus ← pyIndex (← pyIndex m "vus") "values"
    let mx ← pyGetNum vus "max"
    pure [("max_vus", mx)]
  else
    pure []

/-- `extract_metrics(data)`: pull the known metric groups out of a
loaded document, in the script's insertion order. -/
def extract_metrics (data : Json) : Except PyErr Metrics := do
  if !(← pyContains data "metrics") then
    return []
  let m ← pyIndex data "metrics"
  let d1 ← duration_part m
  let d2 ← failed_part m
  let d3 ← reqs_part m
  let d4 ← iterations_part m
  let d5 ← vus_part m
  return d1 ++ d2 ++ d3 ++ d4 ++ d5

/-- The threshold table: a record with exactly the three entries of the
script's `THRESHOLDS` dict. -/
structure Thresholds where
  p95_latency_ms : ℚ
  error_rate_percent : ℚ
  success_rate_percent : ℚ

/-- `THRESHOLDS`: the process-wide constant threshold table. -/
def THRESHOLDS : Thresholds :=
  { p95_latency_ms := 500
    error_rate_percent := 1/10
    success_rate_percent := 999/10 }

/-- `check_threshold(name, value, threshold, lower_is_better)`:
`value <= threshold` when lower is better, `value >= threshold`
otherwise.  The `name` argument only feeds the printed report. -/
def check_threshold (name : String) (value threshold : ℚ)
    (lower_is_better : Bool := true) : Bool :=
  if lower_is_better then decide (value ≤ threshold)
  else decide (value ≥ threshold)

/-- The three guarded threshold checks at the end of `analyze_results`,
folding `all_passed` exactly as the script does: p95 latency, error rate,
then success rate derived as `100 - error_rate`; a check whose source
metric is absent is skipped. -/
def run_checks (t : Thresholds) (metrics : Metrics) : Bool :=
  let all1 := true
  let all2 :=
    match metrics.lookup "p95_latency" with
    | some v => all1 && check_threshold "P95 Latency" v t.p95_latency_ms true
    | none => all1
  let all3 :=
    match metrics.lookup "error_rate" with
    | some v => all2 && check_threshold "Error Rate" v t.error_rate_percent true
    | none => all2
  let all4 :=
    match metrics.lookup "error_rate" with
    | some v =>
      all3 && check_threshold "Success Rate" (100 - v) t.success_rate_percent false
    | none => all3
  all4

/-- What reading one supplied path yields: a read/parse failure
(the exception caught inside `load_results`) or a parsed document. -/
inductive LoadOutcome where
  | readError
  | parsed (data : Json)

/-- `load_results(file_path)`: the parsed document, or the empty dict
after a caught read/parse exception. -/
def load_results : LoadOutcome → Json
  | .readError => .obj []
  | .parsed data => data

/-- `analyze_results(file_path)` with the threshold table passed
explicitly: load, bail out on a falsy document, extract, bail out on an
empty metrics dict, then run the three guarded checks. -/
def analyzeWith (t : Thresholds) (file : LoadOutcome) : Except PyErr Bool := do
  let data := load_results file
  if pyFalsy data then
    return false
  let metrics ← extract_metrics data
  if metrics.isEmpty then
    return false
  return run_checks t metrics

/-- `analyze_results`, reading the constant `THRESHOLDS` table. -/
def analyze_results (file : LoadOutcome) : Except PyErr Bool :=
  analyzeWith THRESHOLDS file

/-- The file loop of `main`: `all_passed` starts `True` and each file's
outcome is AND-ed in; an uncaught exception aborts the loop. -/
def run_files (t : Thresholds) (all_passed : Bool) :
    List LoadOutcome → Except PyErr Bool
  | [] => .ok all_passed
  | f :: fs => do
    let passed ← analyzeWith t f
    run_files t (all_passed && passed) fs

/-- The batch-processing tail of `main` (after the usage check), with
the threshold table passed explicitly: exit 0 when every file passed,
else exit 1. -/
def runAllWith (t : Thresholds) (files : List LoadOutcome) :
    Except PyErr Nat := do
  let all_passed ← run_files t true files
  return if all_passed then 0 else 1

/-- The batch-processing tail of `main`, reading `THRESHOLDS`. -/
def runAll (files : List LoadOutcome) : Except PyErr Nat :=
  runAllWith THRESHOLDS files

/-- `main()`: `len(sys.argv) < 2` (no file argument at all) prints usage
and exits 1; otherwise the files are processed and the batch outcome
decides the exit code. -/
def main_exit (files : List LoadOutcome) : Except PyErr Nat :=
  if files.isEmpty then .ok 1
  else runAll files

/-- A result document matching the first end-to-end scenario:
`http_req_duration.values.p(95) = 450`, `http_req_failed.values.rate
= 0.0005`. -/
def passDoc : Json :=
  .obj [("metrics", .obj
    [("http_req_duration", .obj [("values", .obj [("p(95)", .num 450)])]),
     ("http_req_failed", .obj [("values", .obj [("rate", .num (1/2000))])])])]

/-- A result document matching the second end-to-end scenario:
`p(95) = 600`, `rate = 0.002`. -/
def failDoc : Json :=
  .obj [("metrics", .obj
    [("http_req_duration", .obj [("values", .obj [("p(95)", .num 600)])]),
     ("http_req_failed", .obj [("values", .obj [("rate", .num (1/500))])])])]

/-- A result document carrying only the `vus` group. -/
def vusDoc : Json :=
  .obj [("metrics", .obj [("vus", .obj [("values", .obj [("max", .num 50)])])])]

/-- A document that is valid JSON but malformed as a k6 result: its
`http_req_duration` group has no `values` key. -/
def noValuesDoc : Json :=
  .obj [("metrics", .obj [("http_req_duration", .obj [])])]

/-- The metrics the script extracts from `passDoc`: absent duration
fields default to 0, the failure rate 0.0005 becomes 0.05 percent. -/
def passMetrics : Metrics :=
  [("avg_latency", 0), ("p95_latency", 450), ("p99_latency", 0),
   ("max_latency", 0), ("error_rate", 1/20)]

/-- The metrics the script extracts from `failDoc`: the failure rate
0.002 becomes 0.2 percent. -/
def failMetrics : Metrics :=
  [("avg_latency", 0), ("p95_latency", 600), ("p99_latency", 0),
   ("max_latency", 0), ("error_rate", 1/5)]

/-- The metrics the script extracts from `vusDoc`. -/
def vusMetrics : Metrics :=
  [("max_vus", 50)]

theorem lookup_append_of_none {l₁ l₂ : Metrics} {k : String}
    (h : l₁.lookup k = none) : (l₁ ++ l₂).lookup k = l₂.lookup k := by
  induction l₁ with
  | nil => simp
  | cons p l ih =>
    obtain ⟨a, b⟩ := p
    simp only [List.lookup, List.cons_append] at h ⊢
    cases hk : k == a with
    | true => simp [hk] at h
    | false => simpa [hk] using ih (by simpa [hk] using h)

@[simp] theorem pyBindOk {α β : Type} (a : α) (f : α → Except PyErr β) :
    (Except.ok a : Except PyErr α) >>= f = f a := rfl

@[simp] theorem pyBindError {α β : Type} (e : PyErr) (f : α → Except PyErr β) :
    (Except.error e : Except PyErr α) >>= f = .error e := rfl

@[simp] theorem pyPureOk {α : Type} (a : α) :
    (pure a : Except PyErr α) = .ok a := rfl

theorem extract_passDoc : extract_metrics passDoc = .ok passMetrics := by
  simp [extract_metrics, duration_part, failed_part, reqs_part,
    iterations_part, vus_part, pyContains, pyIndex, pyGetNum, passDoc,
    List.lookup, passMetrics]
  norm_num

theorem extract_failDoc : extract_metrics failDoc = .ok failMetrics := by
  simp [extract_metrics, duration_part, failed_part, reqs_part,
    iterations_part, vus_part, pyContains, pyIndex, pyGetNum, failDoc,
    List.lookup, failMetrics]
  norm_num

theorem extract_vusDoc : extract_metrics vusDoc = .ok vusMetrics := by
  simp [extract_metrics, duration_part, failed_part, reqs_part,
    iterations_part, vus_part, pyContains, pyIndex, pyGetNum, vusDoc,
    List.lookup, vusMetrics]

theorem extract_noValuesDoc :
    extract_metrics noValuesDoc = .error (.keyError "values") := by
  simp [extract_metrics, duration_part, failed_part, reqs_part,
    iterations_part, vus_part, pyContains, pyIndex, pyGetNum, noValuesDoc,
    List.lookup]

theorem analyze_passDoc :
    analyzeWith THRESHOLDS (.parsed passDoc) = .ok true := by
  simp only [analyzeWith, load_results, extract_passDoc, pyBindOk]
  simp [passMetrics, pyFalsy, passDoc, List.lookup, run_checks,
    check_threshold, THRESHOLDS]
  norm_num

theorem analyze_failDoc :
    analyzeWith THRESHOLDS (.parsed failDoc) = .ok false := by
  simp only [analyzeWith, load_results, extract_failDoc, pyBindOk]
  simp [failMetrics, pyFalsy, failDoc, List.lookup, run_checks,
    check_threshold, THRESHOLDS]
  norm_num

theorem analyze_vusDoc :
    analyzeWith THRESHOLDS (.parsed vusDoc) = .ok true := by
  simp only [analyzeWith, load_results, extract_vusDoc, pyBindOk]
  simp [vusMetrics, pyFalsy, vusDoc, List.lookup, run_checks]

theorem analyze_noValuesDoc :
    analyzeWith THRESHOLDS (.parsed noValuesDoc) = .error (.keyError "values") := by
  simp only [analyzeWith, load_results, extract_noValuesDoc, pyBindError]
  simp [pyFalsy, noValuesDoc]

theorem analyze_readError :
    analyzeWith THRESHOLDS .readError = .ok false := rfl

theorem analyzeWith_ok {t : Thresholds} {lo : LoadOutcome} {ms : Metrics}
    (hx : extract_metrics (load_results lo) = .ok ms) (hne : ms ≠ []) :
    analyzeWith t lo = .ok (run_checks t ms) := by
  have hfal : pyFalsy (load_results lo) = false := by
    cases hd : load_results lo with
    | num q =>
      rw [hd] at hx
      simp [extract_metrics, pyContains] at hx
    | obj fs =>
      cases fs with
      | nil =>
        rw [hd] at hx
        simp [extract_metrics, pyContains, List.lookup] at hx
        exact absurd hx hne
      | cons a l => simp [pyFalsy]
  cases ms with
  | nil => exact absurd rfl hne
  | cons p rest =>
    simp [analyzeWith, hfal, hx]

theorem duration_part_no_error_rate {m : Json} {p : Metrics}
    (h : duration_part m = .ok p) : p.lookup "error_rate" = none := by
  simp only [duration_part] at h
  cases hc : pyContains m "http_req_duration" with
  | error e => rw [hc] at h; simp at h
  | ok b =>
    rw [hc] at h
    cases b
    · simp at h; subst h; rfl
    · simp only [pyBindOk, if_true] at h
      cases h1 : pyIndex m "http_req_duration" with
      | error e => simp [h1] at h
      | ok g =>
        cases h2 : pyIndex g "values" with
        | error e => simp [h1, h2] at h
        | ok d =>
          cases h3 : pyGetNum d "avg" with
          | error e => simp [h1, h2, h3] at h
          | ok avg =>
            cases h4 : pyGetNum d "p(95)" with
            | error e => simp [h1, h2, h3, h4] at h
            | ok p95 =>
              cases h5 : pyGetNum d "p(99)" with
              | error e => simp [h1, h2, h3, h4, h5] at h
              | ok p99 =>
                cases h6 : pyGetNum d "max" with
                | error e => simp [h1, h2, h3, h4, h5, h6] at h
                | ok mx =>
                  simp [h1, h2, h3, h4, h5, h6] at h
                  subst h; rfl

theorem reqs_part_no_error_rate {m : Json} {p : Metrics}
    (h : reqs_part m = .ok p) : p.lookup "error_rate" = none := by
  simp only [reqs_part] at h
  cases hc : pyContains m "http_reqs" with
  | error e => rw [hc] at h; simp at h
  | ok b =>
    rw [hc] at h
    cases b
    · simp at h; subst h; rfl
    · simp only [pyBindOk, if_true] at h
      cases h1 : pyIndex m "http_reqs" with
      | error e => simp [h1] at h
      | ok g =>
        cases h2 : pyIndex g "values" with
        | error e => simp [h1, h2] at h
        | ok d =>
          cases h3 : pyGetNum d "count" with
          | error e => simp [h1, h2, h3] at h
          | ok count =>
            cases h4 : pyGetNum d "rate" with
            | error e => simp [h1, h2, h3, h4] at h
            | ok rate =>
              simp [h1, h2, h3, h4] at h
              subst h; rfl

theorem iterations_part_no_error_rate {m : Json} {p : Metrics}
    (h : iterations_part m = .ok p) : p.lookup "error_rate" = none := by
  simp only [iterations_part] at h
  cases hc : pyContains m "iterations" with
  | error e => rw [hc] at h; simp at h
  | ok b =>
    rw [hc] at h
    cases b
    · simp at h; subst h; rfl
    · simp only [pyBindOk, if_true] at h
      cases h1 : pyIndex m "iterations" with
      | error e => simp [h1] at h
      | ok g =>
        cases h2 : pyIndex g "values" with
        | error e => simp [h1, h2] at h
        | ok d =>
          cases h3 : pyGetNum d "count" with
          | error e => simp [h1, h2, h3] at h
          | ok count =>
            simp [h1, h2, h3] at h
            subst h; rfl

theorem vus_part_no_error_rate {m : Json} {p : Metrics}
    (h : vus_part m = .ok p) : p.lookup "error_rate" = none := by
  simp only [vus_part] at h
  cases hc : pyContains m "vus" with
  | error e => rw [hc] at h; simp at h
  | ok b =>
    rw [hc] at h
    cases b
    · simp at h; subst h; rfl
    · simp only [pyBindOk, if_true] at h
      cases h1 : pyIndex m "vus" with
      | error e => simp [h1] at h
      | ok g =>
        cases h2 : pyIndex g "values" with
        | error e => simp [h1, h2] at h
        | ok d =>
          cases h3 : pyGetNum d "max" with
          | error e => simp [h1, h2, h3] at h
          | ok mx =>
            simp [h1, h2, h3] at h
            subst h; rfl

theorem failed_part_of_absent {gs : List (String × Json)}
    (h : gs.lookup "http_req_failed" = none) :
    failed_part (.obj gs) = .ok [] := by
  simp [failed_part, pyContains, h]

theorem extract_metrics_parts {fs gs : List (String × Json)} {ms : Metrics}
    (hm : fs.lookup "metrics" = some (.obj gs))
    (hx : extract_metrics (.obj fs) = .ok ms) :
    ∃ d1 d2 d3 d4 d5,
      duration_part (.obj gs) = .ok d1 ∧
      failed_part (.obj gs) = .ok d2 ∧
      reqs_part (.obj gs) = .ok d3 ∧
      iterations_part (.obj gs) = .ok d4 ∧
      vus_part (.obj gs) = .ok d5 ∧
      ms = d1 ++ (d2 ++ (d3 ++ (d4 ++ d5))) := by
  simp only [extract_metrics, pyContains, pyIndex, hm, Option.isSome_some,
    Bool.not_true, Bool.false_eq_true, if_false, pyBindOk] at hx
  cases h1 : duration_part (.obj gs) with
  | error e => simp [h1] at hx
  | ok d1 =>
    cases h2 : failed_part (.obj gs) with
    | error e => simp [h1, h2] at hx
    | ok d2 =>
      cases h3 : reqs_part (.obj gs) with
      | error e => simp [h1, h2, h3] at hx
      | ok d3 =>
        cases h4 : iterations_part (.obj gs) with
        | error e => simp [h1, h2, h3, h4] at hx
        | ok d4 =>
          cases h5 : vus_part (.obj gs) with
          | error e => simp [h1, h2, h3, h4, h5] at hx
          | ok d5 =>
            simp only [h1, h2, h3, h4, h5, pyBindOk] at hx
            exact ⟨d1, d2, d3, d4, d5, rfl, rfl, rfl, rfl, rfl,
              by simpa using hx.symm⟩

theorem run_files_of_all {t : Thresholds} {files : List LoadOutcome}
    (h : ∀ lo ∈ files, analyzeWith t lo = .ok true) :
    ∀ acc : Bool, run_files t acc files = .ok acc := by
  induction files with
  | nil => intro acc; rfl
  | cons f fs ih =>
    intro acc
    have hf : analyzeWith t f = .ok true := h f (by simp)
    simp only [run_files, hf, pyBindOk, Bool.and_true]
    exact ih (fun lo hm => h lo (by simp [hm])) acc

theorem run_files_true {t : Thresholds} :
    ∀ (files : List LoadOutcome) (acc : Bool),
      run_files t acc files = .ok true →
      acc = true ∧ ∀ lo ∈ files, analyzeWith t lo = .ok true := by
  intro files
  induction files with
  | nil =>
    intro acc h
    simp only [run_files] at h
    exact ⟨by simpa using h, by simp⟩
  | cons f fs ih =>
    intro acc h
    cases ha : analyzeWith t f with
    | error e => simp [run_files, ha] at h
    | ok passed =>
      simp only [run_files, ha, pyBindOk] at h
      obtain ⟨hacc, hall⟩ := ih (acc && passed) h
      obtain ⟨h1, h2⟩ := Bool.and_eq_true_iff.mp hacc
      subst h2
      refine ⟨h1, ?_⟩
      intro lo hm
      rcases List.mem_cons.mp hm with rfl | hm
      · exact ha
      · exact hall lo hm

/-- C1 (amended): supplying no file argument at all is invalid and exits
with code 1 before any file is processed; with one or more arguments the
batch is processed. -/
theorem c1_zero_args_amended :
    main_exit [] = .ok 1 ∧
    ∀ files : List LoadOutcome, files ≠ [] → main_exit files = runAll files := by
  refine ⟨rfl, ?_⟩
  intro files h
  cases files with
  | nil => exact absurd rfl h
  | cons f fs => rfl

/-- C1 witness: the amended statement applied to a one-file batch. -/
theorem c1_zero_args_witness :
    main_exit [LoadOutcome.readError] = runAll [LoadOutcome.readError] :=
  c1_zero_args_amended.2 [LoadOutcome.readError] (by simp)

/-- C1 counterexample: one single argument after the program name is NOT
rejected: the file is processed and the run exits 0, not 1. -/
theorem c1_counterexample_single_arg :
    main_exit [LoadOutcome.parsed passDoc] = .ok 0 ∧
    main_exit [LoadOutcome.parsed passDoc] ≠ .ok 1 := by
  have h : main_exit [LoadOutcome.parsed passDoc] = .ok 0 := by
    simp [main_exit, runAll, runAllWith, run_files, analyze_passDoc]
  exact ⟨h, by simp [h]⟩

/-- C2 (amended): an unreadable or unparseable file raises nothing: the
analysis reports it failed and the loop continues with the rest. -/
theorem c2_read_failure_amended :
    analyze_results LoadOutcome.readError = .ok false ∧
    ∀ (acc : Bool) (rest : List LoadOutcome),
      run_files THRESHOLDS acc (LoadOutcome.readError :: rest) =
        run_files THRESHOLDS false rest := by
  refine ⟨analyze_readError, ?_⟩
  intro acc rest
  simp [run_files, analyze_readError]

/-- C2 counterexample: a document that parses but lacks the `values` key
inside a metric group makes the evaluator raise an uncaught `KeyError`,
aborting the batch instead of reporting the file failed. -/
theorem c2_counterexample_schema_error :
    analyze_results (LoadOutcome.parsed noValuesDoc) = .error (.keyError "values") ∧
    runAll [LoadOutcome.parsed noValuesDoc] = .error (.keyError "values") := by
  refine ⟨analyze_noValuesDoc, ?_⟩
  simp [runAll, runAllWith, run_files, analyze_noValuesDoc]

/-- C3: with lower_is_better the check passes exactly when value is at
most the threshold; otherwise exactly when value is at least it. -/
theorem c3_check_threshold_iff :
    ∀ (name : String) (value threshold : ℚ),
      (check_threshold name value threshold true = true ↔ value ≤ threshold) ∧
      (check_threshold name value threshold false = true ↔ value ≥ threshold) := by
  intro n v t
  constructor <;> simp [check_threshold]

/-- C8: the threshold table holds exactly the three fixed entries, and
every operation of the evaluator reads that one constant table. -/
theorem c8_thresholds_fixed :
    THRESHOLDS.p95_latency_ms = 500 ∧
    THRESHOLDS.error_rate_percent = 1/10 ∧
    THRESHOLDS.success_rate_percent = 999/10 ∧
    (∀ file : LoadOutcome, analyze_results file = analyzeWith THRESHOLDS file) ∧
    (∀ files : List LoadOutcome, runAll files = runAllWith THRESHOLDS files) :=
  ⟨rfl, rfl, rfl, fun _ => rfl, fun _ => rfl⟩

/-- C10: the error-rate check and the derived success-rate check agree
for every error rate. -/
theorem c10_checks_equivalent :
    ∀ e : ℚ,
      check_threshold "Error Rate" e THRESHOLDS.error_rate_percent true =
      check_threshold "Success Rate" (100 - e) THRESHOLDS.success_rate_percent false := by
  intro e
  simp [check_threshold, THRESHOLDS, decide_eq_decide]
  constructor <;> intro h <;> linarith

/-- C4: after the usage check, the batch exits 0 exactly when every
per-file analysis returned pass; any normal exit is 0 or 1. -/
theorem c4_exit_code_and :
    ∀ files : List LoadOutcome,
      (runAll files = .ok 0 ↔ ∀ lo ∈ files, analyze_results lo = .ok true) ∧
      (∀ c : Nat, runAll files = .ok c → c = 0 ∨ c = 1) := by
  intro files
  constructor
  · constructor
    · intro h
      simp only [runAll, runAllWith] at h
      cases hr : run_files THRESHOLDS true files with
      | error e => rw [hr] at h; simp at h
      | ok b =>
        rw [hr] at h
        simp only [pyBindOk, pyPureOk, Except.ok.injEq] at h
        cases b with
        | false => simp at h
        | true => exact fun lo hm => (run_files_true files true hr).2 lo hm
    · intro h
      have hr := @run_files_of_all THRESHOLDS files h true
      simp [runAll, runAllWith, hr]
  · intro c h
    simp only [runAll, runAllWith] at h
    cases hr : run_files THRESHOLDS true files with
    | error e => rw [hr] at h; simp at h
    | ok b =>
      rw [hr] at h
      simp only [pyBindOk, pyPureOk, Except.ok.injEq] at h
      cases b with
      | false => simp at h; omega
      | true => simp at h; omega

/-- C4 witness: a one-file batch whose analysis passes exits 0. -/
theorem c4_exit_code_and_witness :
    runAll [LoadOutcome.parsed vusDoc] = .ok 0 :=
  (c4_exit_code_and [LoadOutcome.parsed vusDoc]).1.mpr
    (by intro lo hm; rw [List.mem_singleton.mp hm]; exact analyze_vusDoc)

/-- C5: a document whose metrics mapping lacks the http_req_failed group
yields no error_rate key, so the error-rate and success-rate checks are
both skipped and the per-file AND is just the (possible) p95 check. -/
theorem c5_missing_failed_group_skips :
    ∀ (fs gs : List (String × Json)) (ms : Metrics),
      fs.lookup "metrics" = some (.obj gs) →
      gs.lookup "http_req_failed" = none →
      extract_metrics (.obj fs) = .ok ms →
      ms.lookup "error_rate" = none ∧
      run_checks THRESHOLDS ms =
        (match ms.lookup "p95_latency" with
         | some v => check_threshold "P95 Latency" v THRESHOLDS.p95_latency_ms true
         | none => true) := by
  intro fs gs ms hm hab hx
  obtain ⟨d1, d2, d3, d4, d5, h1, h2, h3, h4, h5, hcat⟩ :=
    extract_metrics_parts hm hx
  rw [failed_part_of_absent hab] at h2
  obtain rfl : d2 = [] := by injection h2 with h; exact h.symm
  have hlook : ms.lookup "error_rate" = none := by
    subst hcat
    rw [lookup_append_of_none (duration_part_no_error_rate h1)]
    simp only [List.nil_append]
    rw [lookup_append_of_none (reqs_part_no_error_rate h3)]
    rw [lookup_append_of_none (iterations_part_no_error_rate h4)]
    exact vus_part_no_error_rate h5
  refine ⟨hlook, ?_⟩
  cases hp : ms.lookup "p95_latency" <;> simp [run_checks, hlook, hp]

/-- C5 witness: the claim applied to the vus-only document. -/
theorem c5_missing_failed_group_skips_witness :
    vusMetrics.lookup "error_rate" = none ∧
    run_checks THRESHOLDS vusMetrics =
      (match vusMetrics.lookup "p95_latency" with
       | some v => check_threshold "P95 Latency" v THRESHOLDS.p95_latency_ms true
       | none => true) :=
  c5_missing_failed_group_skips
    [("metrics", .obj [("vus", .obj [("values", .obj [("max", .num 50)])])])]
    [("vus", .obj [("values", .obj [("max", .num 50)])])]
    vusMetrics rfl rfl extract_vusDoc

/-- C6: whenever error_rate is present the success-rate check runs on
exactly 100 minus that error rate, and at error_rate 0.05 against the
99.9 threshold it passes. -/
theorem c6_success_rate_derived :
    (∀ (ms : Metrics) (v : ℚ),
      ms.lookup "error_rate" = some v →
      run_checks THRESHOLDS ms =
        ((match ms.lookup "p95_latency" with
          | some p =>
            check_threshold "P95 Latency" p THRESHOLDS.p95_latency_ms true
          | none => true) &&
         check_threshold "Error Rate" v THRESHOLDS.error_rate_percent true &&
         check_threshold "Success Rate" (100 - v)
           THRESHOLDS.success_rate_percent false)) ∧
    check_threshold "Success Rate" (100 - 1/20)
      THRESHOLDS.success_rate_percent false = true := by
  constructor
  · intro ms v h
    cases hp : ms.lookup "p95_latency" <;> simp [run_checks, h, hp]
  · simp [check_threshold, THRESHOLDS]
    norm_num

/-- C6 witness: the general statement applied to a metrics dict holding
only an error rate of 0.05 percent. -/
theorem c6_success_rate_derived_witness :
    run_checks THRESHOLDS [("error_rate", 1/20)] =
      (true &&
       check_threshold "Error Rate" (1/20) THRESHOLDS.error_rate_percent true &&
       check_threshold "Success Rate" (100 - 1/20)
         THRESHOLDS.success_rate_percent false) :=
  c6_success_rate_derived.1 [("error_rate", 1/20)] (1/20) rfl

/-- C9: a file whose extracted metrics are non-empty but hold neither a
p95 latency nor an error rate runs zero checks, passes, and alone yields
exit code 0. -/
theorem c9_no_checked_metrics_passes :
    ∀ (lo : LoadOutcome) (ms : Metrics),
      extract_metrics (load_results lo) = .ok ms →
      ms ≠ [] →
      ms.lookup "p95_latency" = none →
      ms.lookup "error_rate" = none →
      analyze_results lo = .ok true ∧ main_exit [lo] = .ok 0 := by
  intro lo ms hx hne hp he
  have hchecks : run_checks THRESHOLDS ms = true := by
    simp [run_checks, hp, he]
  have hana : analyzeWith THRESHOLDS lo = .ok true := by
    rw [analyzeWith_ok hx hne, hchecks]
  refine ⟨hana, ?_⟩
  simp [main_exit, runAll, runAllWith, run_files, hana]

/-- C9 witness: the claim applied to the vus-only document. -/
theorem c9_no_checked_metrics_passes_witness :
    analyze_results (LoadOutcome.parsed vusDoc) = .ok true ∧
    main_exit [LoadOutcome.parsed vusDoc] = .ok 0 :=
  c9_no_checked_metrics_passes (.parsed vusDoc) vusMetrics
    extract_vusDoc (by simp [vusMetrics]) rfl rfl

/-- C7: the two end-to-end scenarios: p(95)=450 with rate 0.0005 makes
all three checks pass and the run exit 0; p(95)=600 with rate 0.002
makes all three checks fail and the run exit 1. -/
theorem c7_end_to_end_scenarios :
    extract_metrics passDoc = .ok passMetrics ∧
    check_threshold "P95 Latency" 450 THRESHOLDS.p95_latency_ms true = true ∧
    check_threshold "Error Rate" (1/20) THRESHOLDS.error_rate_percent true = true ∧
    check_threshold "Success Rate" (100 - 1/20)
      THRESHOLDS.success_rate_percent false = true ∧
    analyze_results (.parsed passDoc) = .ok true ∧
    main_exit [.parsed passDoc] = .ok 0 ∧
    extract_metrics failDoc = .ok failMetrics ∧
    check_threshold "P95 Latency" 600 THRESHOLDS.p95_latency_ms true = false ∧
    check_threshold "Error Rate" (1/5) THRESHOLDS.error_rate_percent true = false ∧
    check_threshold "Success Rate" (100 - 1/5)
      THRESHOLDS.success_rate_percent false = false ∧
    analyze_results (.parsed failDoc) = .ok false ∧
    main_exit [.parsed failDoc] = .ok 1 := by
  refine ⟨extract_passDoc, ?_, ?_, ?_, analyze_passDoc, ?_, extract_failDoc,
    ?_, ?_, ?_, analyze_failDoc, ?_⟩
  · simp [check_threshold, THRESHOLDS]; norm_num
  · simp [check_threshold, THRESHOLDS]; norm_num
  · simp [check_threshold, THRESHOLDS]; norm_num
  · simp [main_exit, runAll, runAllWith, run_files, analyze_passDoc]
  · simp [check_threshold, THRESHOLDS]; norm_num
  · simp [check_threshold, THRESHOLDS]; norm_num
  · simp [check_threshold, THRESHOLDS]; norm_num
  · simp [main_exit, runAll, runAllWith, run_files, analyze_failDoc]
